import Mathlib

/-!
Shallow embedding of `Cajita_GlobalMesh.hpp` (namespace `Cajita`).

The C++ header defines two partial specializations of `GlobalMesh`:

* `GlobalMesh<UniformMesh<Scalar>>` — stores two 3-component corner arrays
  and a single cell size.  Two constructors validate the geometry and throw
  `std::logic_error` on failure.
* `GlobalMesh<NonUniformMesh<Scalar>>` — stores three edge coordinate
  vectors verbatim, with no validation.

The embedding models `Scalar` as an exact rational and takes the machine
epsilon `std::numeric_limits<Scalar>::epsilon()` as an explicit parameter
`eps` of the validating constructors (the C++ tolerance is `100 * eps`).
`std::rint` (round to nearest, ties to even, the default rounding mode) is
modelled by `rint`.  A throwing constructor becomes a function into
`Except MeshError _`, with one `MeshError` constructor per distinct
`std::logic_error` message in the source.
-/

namespace Cajita

/-- Decidable equality of `Except` results, used to evaluate constructor
outcomes on concrete inputs. -/
instance exceptDecEq {ε α : Type} [DecidableEq ε] [DecidableEq α] :
    DecidableEq (Except ε α) := fun a b =>
  match a, b with
  | Except.error e, Except.error f =>
    if h : e = f then Decidable.isTrue (by rw [h])
    else Decidable.isFalse (by simp [h])
  | Except.error _, Except.ok _ => Decidable.isFalse (by simp)
  | Except.ok _, Except.error _ => Decidable.isFalse (by simp)
  | Except.ok x, Except.ok y =>
    if h : x = y then Decidable.isTrue (by rw [h])
    else Decidable.isFalse (by simp [h])

/-- Semantics of `std::rint` in the default rounding mode, on exact
rationals: round to the nearest integer, ties going to the even integer. -/
def rint (x : ℚ) : ℤ :=
  let f := ⌊x⌋
  if x - f < 1 / 2 then f
  else if 1 / 2 < x - f then f + 1
  else if f % 2 = 0 then f else f + 1

/-- The three distinct `std::logic_error` conditions thrown by the uniform
mesh constructors, one per message string in the source. -/
inductive MeshError : Type
  /-- "Extent not evenly divisible by uniform cell size" -/
  | extentNotDivisible : MeshError
  /-- "Cell sizes not equal" -/
  | cellSizesNotEqual : MeshError
  /-- "Global number of cells mismatch" -/
  | cellCountMismatch : MeshError
deriving DecidableEq, Repr

/-- State of `GlobalMesh<UniformMesh<Scalar>>`: the three private fields
`_global_low_corner`, `_global_high_corner`, `_cell_size`. -/
structure UniformGlobalMesh : Type where
  global_low_corner : Fin 3 → ℚ
  global_high_corner : Fin 3 → ℚ
  cell_size : ℚ
deriving DecidableEq

/-- `lowCorner`: `return _global_low_corner[dim];` -/
def UniformGlobalMesh.lowCorner (m : UniformGlobalMesh) (dim : Fin 3) : ℚ :=
  m.global_low_corner dim

/-- `highCorner`: `return _global_high_corner[dim];` -/
def UniformGlobalMesh.highCorner (m : UniformGlobalMesh) (dim : Fin 3) : ℚ :=
  m.global_high_corner dim

/-- `extent`: `return highCorner( dim ) - lowCorner( dim );` -/
def UniformGlobalMesh.extent (m : UniformGlobalMesh) (dim : Fin 3) : ℚ :=
  m.highCorner dim - m.lowCorner dim

/-- `globalNumCell`: `return std::rint( extent( dim ) / _cell_size );` -/
def UniformGlobalMesh.globalNumCell (m : UniformGlobalMesh) (dim : Fin 3) : ℤ :=
  rint (m.extent dim / m.cell_size)

/-- `uniformCellSize`: `return _cell_size;` -/
def UniformGlobalMesh.uniformCellSize (m : UniformGlobalMesh) : ℚ :=
  m.cell_size

/-- Cell size constructor of `GlobalMesh<UniformMesh<Scalar>>`: stores the
corners and the cell size, then for `d = 0, 1, 2` checks
`|globalNumCell(d) * _cell_size - extent(d)| > 100 * eps` and throws
"Extent not evenly divisible by uniform cell size" on the first failure.
All three loop iterations throw the same error, so the unrolled loop is a
single disjunctive test. -/
def createUniformGlobalMeshFromCellSize (eps : ℚ)
    (global_low_corner global_high_corner : Fin 3 → ℚ) (cell_size : ℚ) :
    Except MeshError UniformGlobalMesh :=
  let m : UniformGlobalMesh :=
    ⟨global_low_corner, global_high_corner, cell_size⟩
  if |(m.globalNumCell 0 : ℚ) * m.cell_size - m.extent 0| > 100 * eps ∨
      |(m.globalNumCell 1 : ℚ) * m.cell_size - m.extent 1| > 100 * eps ∨
      |(m.globalNumCell 2 : ℚ) * m.cell_size - m.extent 2| > 100 * eps then
    Except.error MeshError.extentNotDivisible
  else
    Except.ok m

/-- Number-of-global-cells constructor of `GlobalMesh<UniformMesh<Scalar>>`:
computes `cell_sizes[d] = (high[d] - low[d]) / global_num_cell[d]`, throws
"Cell sizes not equal" if `cell_sizes[I]` differs from `cell_sizes[J]` or
`cell_sizes[K]` by more than `100 * eps`, stores `cell_sizes[I]` as the
cell size, then for `d = 0, 1, 2` (in order) checks the evenly-divisible
condition and then `globalNumCell(d) == global_num_cell[d]`.  The loop is
unrolled because the two per-dimension failures throw different errors. -/
def createUniformGlobalMeshFromNumCell (eps : ℚ)
    (global_low_corner global_high_corner : Fin 3 → ℚ)
    (global_num_cell : Fin 3 → ℤ) :
    Except MeshError UniformGlobalMesh :=
  let cell_sizes : Fin 3 → ℚ := fun d =>
    (global_high_corner d - global_low_corner d) / (global_num_cell d : ℚ)
  if |cell_sizes 0 - cell_sizes 1| > 100 * eps ∨
      |cell_sizes 0 - cell_sizes 2| > 100 * eps then
    Except.error MeshError.cellSizesNotEqual
  else
    let m : UniformGlobalMesh :=
      ⟨global_low_corner, global_high_corner, cell_sizes 0⟩
    if |(m.globalNumCell 0 : ℚ) * m.cell_size - m.extent 0| > 100 * eps then
      Except.error MeshError.extentNotDivisible
    else if m.globalNumCell 0 ≠ global_num_cell 0 then
      Except.error MeshError.cellCountMismatch
    else if |(m.globalNumCell 1 : ℚ) * m.cell_size - m.extent 1| > 100 * eps then
      Except.error MeshError.extentNotDivisible
    else if m.globalNumCell 1 ≠ global_num_cell 1 then
      Except.error MeshError.cellCountMismatch
    else if |(m.globalNumCell 2 : ℚ) * m.cell_size - m.extent 2| > 100 * eps then
      Except.error MeshError.extentNotDivisible
    else if m.globalNumCell 2 ≠ global_num_cell 2 then
      Except.error MeshError.cellCountMismatch
    else
      Except.ok m

/-- State of `GlobalMesh<NonUniformMesh<Scalar>>`: the private field
`_edges`, an array of three coordinate vectors. -/
structure NonUniformGlobalMesh : Type where
  edges : Fin 3 → List ℚ
deriving DecidableEq

/-- Constructor of `GlobalMesh<NonUniformMesh<Scalar>>`: stores
`{i_edges, j_edges, k_edges}` verbatim; no validation, no failure mode. -/
def createNonUniformGlobalMesh (i_edges j_edges k_edges : List ℚ) :
    NonUniformGlobalMesh :=
  ⟨![i_edges, j_edges, k_edges]⟩

/-- Non-uniform `lowCorner`: `return _edges[dim].front();`.  `front()` on an
empty vector is undefined behaviour in C++; the embedding totalizes it with
a default, and every theorem about it assumes the vector is non-empty. -/
def NonUniformGlobalMesh.lowCorner (m : NonUniformGlobalMesh) (dim : Fin 3) : ℚ :=
  (m.edges dim).headD 0

/-- Non-uniform `highCorner`: `return _edges[dim].back();` (same
undefined-behaviour caveat as `front()`). -/
def NonUniformGlobalMesh.highCorner (m : NonUniformGlobalMesh) (dim : Fin 3) : ℚ :=
  (m.edges dim).getLastD 0

/-- Non-uniform `extent`: `return highCorner( dim ) - lowCorner( dim );` -/
def NonUniformGlobalMesh.extent (m : NonUniformGlobalMesh) (dim : Fin 3) : ℚ :=
  m.highCorner dim - m.lowCorner dim

/-- Non-uniform `globalNumCell`: `return _edges[dim].size() - 1;` (as a
signed value; the source's `size_t` wrap-around on an empty vector is
outside every claim's domain, which requires length at least 2). -/
def NonUniformGlobalMesh.globalNumCell (m : NonUniformGlobalMesh) (dim : Fin 3) : ℤ :=
  ((m.edges dim).length : ℤ) - 1

/-- Non-uniform `nonUniformEdge`: `return _edges[dim];` -/
def NonUniformGlobalMesh.nonUniformEdge (m : NonUniformGlobalMesh) (dim : Fin 3) :
    List ℚ :=
  m.edges dim

/-- A `const` member function call seen as a state transformer: it returns
the computed value together with the object it leaves behind.  Used to
state that queries do not mutate the mesh. -/
def methodCall {σ α : Type} (f : σ → α) (s : σ) : α × σ :=
  (f s, s)

/-- The local `cell_sizes` array computed by the number-of-cells
constructor: `cell_sizes[d] = (high[d] - low[d]) / global_num_cell[d]`. -/
def cell_sizes (low high : Fin 3 → ℚ) (n : Fin 3 → ℤ) (d : Fin 3) : ℚ :=
  (high d - low d) / (n d : ℚ)

/-- The evenly-divisible condition checked per dimension by both uniform
constructors: the extent re-derived from the rounded cell count,
`rint(extent / cell_size) * cell_size`, is within `100 * eps` of the
supplied extent. -/
def evenlyDivisible (eps extent cell_size : ℚ) : Prop :=
  |(rint (extent / cell_size) : ℚ) * cell_size - extent| ≤ 100 * eps

instance decEvenlyDivisible (eps extent cell_size : ℚ) :
    Decidable (evenlyDivisible eps extent cell_size) :=
  inferInstanceAs (Decidable (_ ≤ _))

/-- Fixture for the round-trip examples of the specification: corners
`(0,0,0)` and `(10,10,10)` with uniform cell size `2`. -/
def sampleMesh : UniformGlobalMesh :=
  ⟨fun _ => 0, fun _ => 10, 2⟩

/-- Fixture edge sequence for dimension I of the non-uniform example. -/
def sampleEdgesI : List ℚ := [0, 1, 3, 6]

/-- Fixture edge sequence for dimension J of the non-uniform example. -/
def sampleEdgesJ : List ℚ := [0, 2, 4]

/-- Fixture edge sequence for dimension K of the non-uniform example. -/
def sampleEdgesK : List ℚ := [0, 5]

/-- Fixture non-uniform mesh built from the three sample edge sequences. -/
def sampleNonUniform : NonUniformGlobalMesh :=
  createNonUniformGlobalMesh sampleEdgesI sampleEdgesJ sampleEdgesK

/-- A quantifier over the three spatial dimensions is a three-way
conjunction. -/
lemma forall_fin3_iff {P : Fin 3 → Prop} : (∀ d, P d) ↔ P 0 ∧ P 1 ∧ P 2 := by
  refine ⟨fun h => ⟨h 0, h 1, h 2⟩, fun h d => ?_⟩
  fin_cases d
  · exact h.1
  · exact h.2.1
  · exact h.2.2

/-- Claim C1: the cell-size constructor succeeds if and only if, in every
dimension, the supplied extent differs from
`round(extent(d)/cell_size) * cell_size` by at most `100 * eps`; whenever
some dimension exceeds the tolerance the constructor fails with the
"extent not evenly divisible" error (and hence produces no mesh). -/
theorem cellSize_ctor_ok_iff_divisible (eps : ℚ) (low high : Fin 3 → ℚ)
    (cell_size : ℚ) (hcs : 0 < cell_size) :
    ((∃ m, createUniformGlobalMeshFromCellSize eps low high cell_size =
        Except.ok m) ↔
      ∀ d : Fin 3, |(rint ((high d - low d) / cell_size) : ℚ) * cell_size -
        (high d - low d)| ≤ 100 * eps) ∧
    ((¬ ∀ d : Fin 3, |(rint ((high d - low d) / cell_size) : ℚ) * cell_size -
        (high d - low d)| ≤ 100 * eps) →
      createUniformGlobalMeshFromCellSize eps low high cell_size =
        Except.error MeshError.extentNotDivisible) := by
  have hcond : ∀ d : Fin 3,
      ((⟨low, high, cell_size⟩ : UniformGlobalMesh).globalNumCell d : ℚ) *
          (⟨low, high, cell_size⟩ : UniformGlobalMesh).cell_size -
          (⟨low, high, cell_size⟩ : UniformGlobalMesh).extent d =
        (rint ((high d - low d) / cell_size) : ℚ) * cell_size -
          (high d - low d) := fun d => rfl
  simp only [createUniformGlobalMeshFromCellSize]
  split_ifs with h
  · rw [hcond 0, hcond 1, hcond 2] at h
    constructor
    · constructor
      · intro hex
        rcases hex with ⟨m, hm⟩
        exact absurd hm (by simp)
      · intro hall
        rcases h with h | h | h <;>
          exact absurd (hall _) (not_le.mpr h)
    · intro _
      rfl
  · rw [hcond 0, hcond 1, hcond 2] at h
    push_neg at h
    constructor
    · constructor
      · intro _
        rw [forall_fin3_iff]
        exact ⟨h.1, h.2.1, h.2.2⟩
      · intro _
        exact ⟨_, rfl⟩
    · intro hno
      exact absurd (forall_fin3_iff.mpr ⟨h.1, h.2.1, h.2.2⟩) hno

/-- Witness for claim C1 at low corner `(0,0,0)`, high corner `(10,10,10)`,
cell size `2`, machine epsilon `1/1000`: the hypothesis `0 < 2` holds and
the construction succeeds because `rint(10/2) * 2 = 10` exactly. -/
theorem cellSize_ctor_ok_iff_divisible_witness :
    (0 : ℚ) < 2 ∧
    (∃ m, createUniformGlobalMeshFromCellSize (1/1000) (fun _ => 0)
        (fun _ => 10) 2 = Except.ok m) :=
  ⟨by decide,
    (cellSize_ctor_ok_iff_divisible (1/1000) (fun _ => 0) (fun _ => 10) 2
        (by decide)).1.mpr (by with_unfolding_all decide)⟩

/-- Claim C2: the cell-count constructor fails with the "cell sizes not
equal" error exactly when dimension I's candidate cell size differs from
dimension J's or K's candidate by more than `100 * eps`; whenever it
instead returns a mesh, the stored cell size reported by
`uniformCellSize()` is dimension I's candidate. -/
theorem numCell_ctor_cell_size_consistency (eps : ℚ) (low high : Fin 3 → ℚ)
    (n : Fin 3 → ℤ) (hn : ∀ d, 1 ≤ n d) :
    (createUniformGlobalMeshFromNumCell eps low high n =
        Except.error MeshError.cellSizesNotEqual ↔
      (|cell_sizes low high n 0 - cell_sizes low high n 1| > 100 * eps ∨
        |cell_sizes low high n 0 - cell_sizes low high n 2| > 100 * eps)) ∧
    (∀ m, createUniformGlobalMeshFromNumCell eps low high n = Except.ok m →
      m.uniformCellSize = cell_sizes low high n 0) := by
  simp only [createUniformGlobalMeshFromNumCell, cell_sizes,
    UniformGlobalMesh.uniformCellSize]
  split_ifs with h0 h1 h2 h3 h4 h5 h6 <;>
    constructor <;>
      simp_all

/-- Witness for claim C2 at low corner `(0,0,0)`, high corner `(10,10,10)`,
cell counts `(5,5,5)`, machine epsilon `1/1000`: the consistency check
passes, a mesh is produced, and its stored cell size is dimension I's
candidate `(10 - 0) / 5`. -/
theorem numCell_ctor_cell_size_consistency_witness :
    (⟨fun _ => 0, fun _ => 10,
        cell_sizes (fun _ => 0) (fun _ => 10) (fun _ => 5) 0⟩ :
      UniformGlobalMesh).uniformCellSize =
      cell_sizes (fun _ => 0) (fun _ => 10) (fun _ => 5) 0 :=
  (numCell_ctor_cell_size_consistency (1/1000) (fun _ => 0) (fun _ => 10)
      (fun _ => 5) (by decide)).2 _ (by with_unfolding_all decide)

/-- Claim C3 as stated is false: the error raised by the cell-count
constructor when some recomputed cell count disagrees with the requested
count need not be the "cell count mismatch" error.  Concretely, with
`eps = 1/40000`, low corner `(0,0,0)`, high corner `(1, 1000.01, 1001)`
and requested counts `(1, 1000, 1000)`, the candidate cell sizes agree
within tolerance (so the consistency check passes) and dimension K's
recomputed count `1001` differs from the requested `1000`, yet the
constructor throws "extent not evenly divisible" — dimension J fails the
evenly-divisible recheck before dimension K's count is ever compared. -/
theorem numCell_ctor_count_error_counterexample :
    (|cell_sizes (fun _ => 0) (![1, 1000 + 1/100, 1001]) (![1, 1000, 1000]) 0 -
        cell_sizes (fun _ => 0) (![1, 1000 + 1/100, 1001]) (![1, 1000, 1000]) 1| ≤
      100 * (1/40000) ∧
     |cell_sizes (fun _ => 0) (![1, 1000 + 1/100, 1001]) (![1, 1000, 1000]) 0 -
        cell_sizes (fun _ => 0) (![1, 1000 + 1/100, 1001]) (![1, 1000, 1000]) 2| ≤
      100 * (1/40000)) ∧
    rint (((![1, 1000 + 1/100, 1001] : Fin 3 → ℚ) 2 - 0) /
        cell_sizes (fun _ => 0) (![1, 1000 + 1/100, 1001]) (![1, 1000, 1000]) 0) ≠
      (![1, 1000, 1000] : Fin 3 → ℤ) 2 ∧
    createUniformGlobalMeshFromNumCell (1/40000) (fun _ => 0)
        (![1, 1000 + 1/100, 1001]) (![1, 1000, 1000]) =
      Except.error MeshError.extentNotDivisible := by
  with_unfolding_all decide

/-- Claim C3 (amended): suppose the cell-size consistency check passes.
Then the cell-count constructor succeeds if and only if every dimension
passes both the re-applied evenly-divisible check (against the stored cell
size, dimension I's candidate) and the exact equality of the recomputed
cell count with the requested count; moreover, when every dimension passes
the evenly-divisible check, the constructor fails with the "cell count
mismatch" error whenever some recomputed count differs from the requested
one.  (The amendment adds the proviso that no dimension fails the
evenly-divisible recheck; without it the raised error can be "extent not
evenly divisible" instead.) -/
theorem numCell_ctor_recheck_and_count (eps : ℚ) (low high : Fin 3 → ℚ)
    (n : Fin 3 → ℤ) (hn : ∀ d, 1 ≤ n d)
    (hsz : |cell_sizes low high n 0 - cell_sizes low high n 1| ≤ 100 * eps ∧
      |cell_sizes low high n 0 - cell_sizes low high n 2| ≤ 100 * eps) :
    ((∃ m, createUniformGlobalMeshFromNumCell eps low high n = Except.ok m) ↔
      ∀ d : Fin 3,
        evenlyDivisible eps (high d - low d) (cell_sizes low high n 0) ∧
        rint ((high d - low d) / cell_sizes low high n 0) = n d) ∧
    ((∀ d : Fin 3,
        evenlyDivisible eps (high d - low d) (cell_sizes low high n 0)) →
      (∃ d : Fin 3, rint ((high d - low d) / cell_sizes low high n 0) ≠ n d) →
      createUniformGlobalMeshFromNumCell eps low high n =
        Except.error MeshError.cellCountMismatch) := by
  simp only [createUniformGlobalMeshFromNumCell, cell_sizes, evenlyDivisible,
    UniformGlobalMesh.globalNumCell, UniformGlobalMesh.extent,
    UniformGlobalMesh.highCorner, UniformGlobalMesh.lowCorner] at hsz ⊢
  split_ifs with h0 h1 h2 h3 h4 h5 h6
  · exact absurd h0 (not_or.mpr ⟨not_lt.mpr hsz.1, not_lt.mpr hsz.2⟩)
  · refine ⟨⟨fun hex => ?_, fun hall => absurd (hall 0).1 (not_le.mpr h1)⟩,
      fun hdiv _ => absurd (hdiv 0) (not_le.mpr h1)⟩
    rcases hex with ⟨m, hm⟩
    exact absurd hm (by simp)
  · refine ⟨⟨fun hex => ?_, fun hall => absurd (hall 0).2 h2⟩, fun _ _ => rfl⟩
    rcases hex with ⟨m, hm⟩
    exact absurd hm (by simp)
  · refine ⟨⟨fun hex => ?_, fun hall => absurd (hall 1).1 (not_le.mpr h3)⟩,
      fun hdiv _ => absurd (hdiv 1) (not_le.mpr h3)⟩
    rcases hex with ⟨m, hm⟩
    exact absurd hm (by simp)
  · refine ⟨⟨fun hex => ?_, fun hall => absurd (hall 1).2 h4⟩, fun _ _ => rfl⟩
    rcases hex with ⟨m, hm⟩
    exact absurd hm (by simp)
  · refine ⟨⟨fun hex => ?_, fun hall => absurd (hall 2).1 (not_le.mpr h5)⟩,
      fun hdiv _ => absurd (hdiv 2) (not_le.mpr h5)⟩
    rcases hex with ⟨m, hm⟩
    exact absurd hm (by simp)
  · refine ⟨⟨fun hex => ?_, fun hall => absurd (hall 2).2 h6⟩, fun _ _ => rfl⟩
    rcases hex with ⟨m, hm⟩
    exact absurd hm (by simp)
  · rw [not_not] at h2 h4 h6
    refine ⟨⟨fun _ => ?_, fun _ => ⟨_, rfl⟩⟩, fun hdiv hcnt => ?_⟩
    · rw [forall_fin3_iff]
      exact ⟨⟨not_lt.mp h1, h2⟩, ⟨not_lt.mp h3, h4⟩, ⟨not_lt.mp h5, h6⟩⟩
    · rcases hcnt with ⟨d, hd⟩
      fin_cases d
      · exact absurd h2 hd
      · exact absurd h4 hd
      · exact absurd h6 hd

/-- Witness for the amended claim C3 at low corner `(0,0,0)`, high corner
`(1, 1001, 1)`, requested counts `(1, 1000, 1)`, machine epsilon `1/1000`:
the consistency check and every evenly-divisible recheck pass, dimension
J's recomputed count is `1001 ≠ 1000`, and the constructor indeed raises
the "cell count mismatch" error. -/
theorem numCell_ctor_recheck_and_count_witness :
    createUniformGlobalMeshFromNumCell (1/1000) (fun _ => 0) (![1, 1001, 1])
        (![1, 1000, 1]) = Except.error MeshError.cellCountMismatch :=
  (numCell_ctor_recheck_and_count (1/1000) (fun _ => 0) (![1, 1001, 1])
      (![1, 1000, 1]) (by decide) (by with_unfolding_all decide)).2
    (by with_unfolding_all decide) ⟨1, by with_unfolding_all decide⟩

/-- Claim C4: on every mesh returned by either uniform constructor,
`extent(d)` is the difference of the stored high and low corners and
`globalNumCell(d)` is `rint` of the stored extent divided by the stored
cell size, recomputed from the stored state (there is no cached count
field in the data model to read from). -/
theorem uniform_queries_derived (eps : ℚ) (low high : Fin 3 → ℚ)
    (cell_size : ℚ) (n : Fin 3 → ℤ) (m : UniformGlobalMesh)
    (h : createUniformGlobalMeshFromCellSize eps low high cell_size =
        Except.ok m ∨
      createUniformGlobalMeshFromNumCell eps low high n = Except.ok m) :
    ∀ d : Fin 3, m.extent d = m.highCorner d - m.lowCorner d ∧
      m.globalNumCell d = rint (m.extent d / m.uniformCellSize) :=
  fun _ => ⟨rfl, rfl⟩

/-- Witness for claim C4 on the round-trip example: constructing with
corners `(0,0,0)`, `(10,10,10)` and cell size `2` yields `sampleMesh`,
whose dimension-0 queries satisfy the derived equations, with
`globalNumCell(0) = 5` and `extent(0) = 10`. -/
theorem uniform_queries_derived_witness :
    createUniformGlobalMeshFromCellSize (1/1000) (fun _ => 0) (fun _ => 10) 2 =
      Except.ok sampleMesh ∧
    (sampleMesh.extent 0 = sampleMesh.highCorner 0 - sampleMesh.lowCorner 0 ∧
      sampleMesh.globalNumCell 0 =
        rint (sampleMesh.extent 0 / sampleMesh.uniformCellSize)) ∧
    sampleMesh.globalNumCell 0 = 5 ∧ sampleMesh.extent 0 = 10 :=
  ⟨by with_unfolding_all decide,
    uniform_queries_derived (1/1000) (fun _ => 0) (fun _ => 10) 2 (fun _ => 5)
      sampleMesh (Or.inl (by with_unfolding_all decide)) 0,
    by with_unfolding_all decide, by with_unfolding_all decide⟩

/-- Claim C5: for a non-uniform mesh whose edge sequences have length at
least 2, `lowCorner(d)` is the first element of the dimension's edge
sequence, `highCorner(d)` its last element, `extent(d)` their difference,
and `globalNumCell(d)` the sequence length minus one. -/
theorem nonuniform_query_semantics (i j k : List ℚ) (hi : 2 ≤ i.length)
    (hj : 2 ≤ j.length) (hk : 2 ≤ k.length) :
    ((createNonUniformGlobalMesh i j k).lowCorner 0 = i.headD 0 ∧
      (createNonUniformGlobalMesh i j k).highCorner 0 = i.getLastD 0 ∧
      (createNonUniformGlobalMesh i j k).extent 0 = i.getLastD 0 - i.headD 0 ∧
      (createNonUniformGlobalMesh i j k).globalNumCell 0 = (i.length : ℤ) - 1) ∧
    ((createNonUniformGlobalMesh i j k).lowCorner 1 = j.headD 0 ∧
      (createNonUniformGlobalMesh i j k).highCorner 1 = j.getLastD 0 ∧
      (createNonUniformGlobalMesh i j k).extent 1 = j.getLastD 0 - j.headD 0 ∧
      (createNonUniformGlobalMesh i j k).globalNumCell 1 = (j.length : ℤ) - 1) ∧
    ((createNonUniformGlobalMesh i j k).lowCorner 2 = k.headD 0 ∧
      (createNonUniformGlobalMesh i j k).highCorner 2 = k.getLastD 0 ∧
      (createNonUniformGlobalMesh i j k).extent 2 = k.getLastD 0 - k.headD 0 ∧
      (createNonUniformGlobalMesh i j k).globalNumCell 2 = (k.length : ℤ) - 1) :=
  ⟨⟨rfl, rfl, rfl, rfl⟩, ⟨rfl, rfl, rfl, rfl⟩, ⟨rfl, rfl, rfl, rfl⟩⟩

/-- Witness for claim C5 on the concrete example with edges
`[0,1,3,6]`, `[0,2,4]`, `[0,5]`: the general equations hold, and
concretely `lowCorner = (0,0,0)`, `highCorner = (6,4,5)`,
`globalNumCell = (3,2,1)` and `nonUniformEdge(0)` is exactly `[0,1,3,6]`. -/
theorem nonuniform_query_semantics_witness :
    (sampleNonUniform.lowCorner 0 = sampleEdgesI.headD 0 ∧
      sampleNonUniform.highCorner 0 = sampleEdgesI.getLastD 0 ∧
      sampleNonUniform.extent 0 =
        sampleEdgesI.getLastD 0 - sampleEdgesI.headD 0 ∧
      sampleNonUniform.globalNumCell 0 = (sampleEdgesI.length : ℤ) - 1) ∧
    (sampleNonUniform.lowCorner 0 = 0 ∧ sampleNonUniform.lowCorner 1 = 0 ∧
      sampleNonUniform.lowCorner 2 = 0 ∧ sampleNonUniform.highCorner 0 = 6 ∧
      sampleNonUniform.highCorner 1 = 4 ∧ sampleNonUniform.highCorner 2 = 5 ∧
      sampleNonUniform.globalNumCell 0 = 3 ∧
      sampleNonUniform.globalNumCell 1 = 2 ∧
      sampleNonUniform.globalNumCell 2 = 1 ∧
      sampleNonUniform.nonUniformEdge 0 = sampleEdgesI) :=
  ⟨(nonuniform_query_semantics sampleEdgesI sampleEdgesJ sampleEdgesK
      (by decide) (by decide) (by decide)).1,
    by with_unfolding_all decide⟩

/-- Claim C6: the non-uniform constructor is total (its type has no error
outcome) and stores the three supplied sequences verbatim, with no
monotonicity validation, so `nonUniformEdge` returns exactly the sequence
supplied for each dimension — for arbitrary, possibly non-monotonic,
sequences. -/
theorem nonuniform_ctor_stores_verbatim (i j k : List ℚ) :
    (createNonUniformGlobalMesh i j k).nonUniformEdge 0 = i ∧
    (createNonUniformGlobalMesh i j k).nonUniformEdge 1 = j ∧
    (createNonUniformGlobalMesh i j k).nonUniformEdge 2 = k :=
  ⟨rfl, rfl, rfl⟩

/-- Claim C7: for any nonnegative machine epsilon, building the uniform
mesh from corners `(0,0,0)`, `(10,10,10)` and cell counts `(5,5,5)`
succeeds with stored cell size `2`, building it from the same corners with
cell size `2` also succeeds, and the two meshes answer every query
identically in every dimension. -/
theorem count_size_roundtrip_equivalent (eps : ℚ) (heps : 0 ≤ eps) :
    ∃ m1 m2 : UniformGlobalMesh,
      createUniformGlobalMeshFromNumCell eps (fun _ => 0) (fun _ => 10)
          (fun _ => 5) = Except.ok m1 ∧
      createUniformGlobalMeshFromCellSize eps (fun _ => 0) (fun _ => 10) 2 =
        Except.ok m2 ∧
      m1.uniformCellSize = 2 ∧
      (∀ d : Fin 3, m1.lowCorner d = m2.lowCorner d ∧
        m1.highCorner d = m2.highCorner d ∧ m1.extent d = m2.extent d ∧
        m1.globalNumCell d = m2.globalNumCell d) ∧
      m1.uniformCellSize = m2.uniformCellSize := by
  have h100 : (0:ℚ) ≤ 100 * eps := mul_nonneg (by norm_num) heps
  have key1 : createUniformGlobalMeshFromNumCell eps (fun _ => 0)
      (fun _ => 10) (fun _ => 5) =
      Except.ok ⟨fun _ => 0, fun _ => 10, ((10:ℚ) - 0) / ((5:ℤ):ℚ)⟩ := by
    simp only [createUniformGlobalMeshFromNumCell,
      UniformGlobalMesh.globalNumCell, UniformGlobalMesh.extent,
      UniformGlobalMesh.highCorner, UniformGlobalMesh.lowCorner]
    split_ifs with h0 h1 h2
    · rcases h0 with h | h <;>
      · rw [show |((10:ℚ) - 0) / ((5:ℤ):ℚ) - (10 - 0) / ((5:ℤ):ℚ)| = 0 by
            with_unfolding_all decide] at h
        exact absurd h (not_lt.mpr h100)
    · rw [show |(rint (((10:ℚ) - 0) / (((10:ℚ) - 0) / ((5:ℤ):ℚ))) : ℚ) *
          (((10:ℚ) - 0) / ((5:ℤ):ℚ)) - ((10:ℚ) - 0)| = 0 by
            with_unfolding_all decide] at h1
      exact absurd h1 (not_lt.mpr h100)
    · exact absurd (show rint (((10:ℚ) - 0) / (((10:ℚ) - 0) / ((5:ℤ):ℚ))) =
        5 by with_unfolding_all decide) h2
    · rfl
  have key2 : createUniformGlobalMeshFromCellSize eps (fun _ => 0)
      (fun _ => 10) 2 = Except.ok ⟨fun _ => 0, fun _ => 10, 2⟩ := by
    simp only [createUniformGlobalMeshFromCellSize,
      UniformGlobalMesh.globalNumCell, UniformGlobalMesh.extent,
      UniformGlobalMesh.highCorner, UniformGlobalMesh.lowCorner]
    split_ifs with h0
    · rcases h0 with h | h | h <;>
      · rw [show |(rint (((10:ℚ) - 0) / 2) : ℚ) * 2 - ((10:ℚ) - 0)| = 0 by
            with_unfolding_all decide] at h
        exact absurd h (not_lt.mpr h100)
    · rfl
  refine ⟨_, _, key1, key2, by with_unfolding_all decide, fun d => ?_,
    by with_unfolding_all decide⟩
  refine ⟨rfl, rfl, rfl, ?_⟩
  show rint (((10:ℚ) - 0) / (((10:ℚ) - 0) / ((5:ℤ):ℚ))) =
    rint (((10:ℚ) - 0) / 2)
  with_unfolding_all decide

/-- Witness for claim C7 at machine epsilon `1/1000`. -/
theorem count_size_roundtrip_equivalent_witness :
    (0:ℚ) ≤ 1/1000 ∧
    ∃ m1 m2 : UniformGlobalMesh,
      createUniformGlobalMeshFromNumCell (1/1000) (fun _ => 0) (fun _ => 10)
          (fun _ => 5) = Except.ok m1 ∧
      createUniformGlobalMeshFromCellSize (1/1000) (fun _ => 0) (fun _ => 10)
          2 = Except.ok m2 ∧
      m1.uniformCellSize = 2 ∧
      (∀ d : Fin 3, m1.lowCorner d = m2.lowCorner d ∧
        m1.highCorner d = m2.highCorner d ∧ m1.extent d = m2.extent d ∧
        m1.globalNumCell d = m2.globalNumCell d) ∧
      m1.uniformCellSize = m2.uniformCellSize :=
  ⟨by with_unfolding_all decide,
    count_size_roundtrip_equivalent (1/1000) (by with_unfolding_all decide)⟩

/-- Claim C8: there is an input to the cell-count constructor whose
dimension-J and dimension-K candidate cell sizes differ by more than
`100 * eps` and which is nevertheless accepted, because the consistency
check only compares dimension I against J and I against K: here the J and
K candidates sit `0.06` above and below dimension I's candidate `1`, each
within the tolerance `0.1` of I, but `0.12` apart from each other. -/
theorem count_ctor_jk_gap_accepted :
    |cell_sizes (fun _ => 0) (![1, 1 + 6/100, 1 - 6/100]) (fun _ => 1) 1 -
        cell_sizes (fun _ => 0) (![1, 1 + 6/100, 1 - 6/100]) (fun _ => 1) 2| >
      100 * (1/1000) ∧
    createUniformGlobalMeshFromNumCell (1/1000) (fun _ => 0)
        (![1, 1 + 6/100, 1 - 6/100]) (fun _ => 1) =
      Except.ok ⟨fun _ => 0, ![1, 1 + 6/100, 1 - 6/100],
        cell_sizes (fun _ => 0) (![1, 1 + 6/100, 1 - 6/100]) (fun _ => 1) 0⟩ := by
  with_unfolding_all decide

/-- Claim C9: every mesh returned by either uniform constructor stores the
supplied corners unchanged, and the cell-size constructor stores the
supplied cell size unchanged, so the corner queries and `uniformCellSize()`
return exactly the construction inputs — validation never adjusts a stored
value. -/
theorem uniform_ctor_stores_inputs (eps cell_size : ℚ)
    (low high low2 high2 : Fin 3 → ℚ) (n : Fin 3 → ℤ)
    (m m2 : UniformGlobalMesh)
    (h1 : createUniformGlobalMeshFromCellSize eps low high cell_size =
      Except.ok m)
    (h2 : createUniformGlobalMeshFromNumCell eps low2 high2 n =
      Except.ok m2) :
    (∀ d, m.lowCorner d = low d ∧ m.highCorner d = high d) ∧
    m.uniformCellSize = cell_size ∧
    (∀ d, m2.lowCorner d = low2 d ∧ m2.highCorner d = high2 d) := by
  simp only [createUniformGlobalMeshFromCellSize] at h1
  simp only [createUniformGlobalMeshFromNumCell] at h2
  split_ifs at h1
  split_ifs at h2
  rw [Except.ok.injEq] at h1 h2
  subst h1
  subst h2
  exact ⟨fun d => ⟨rfl, rfl⟩, rfl, fun d => ⟨rfl, rfl⟩⟩

/-- Witness for claim C9 on the round-trip example: both constructors
accept corners `(0,0,0)`, `(10,10,10)` (with cell size `2`, respectively
counts `(5,5,5)`), and the resulting `sampleMesh` reports the supplied
corner and cell-size values back. -/
theorem uniform_ctor_stores_inputs_witness :
    (sampleMesh.lowCorner 0 = 0 ∧ sampleMesh.highCorner 0 = 10) ∧
    sampleMesh.uniformCellSize = 2 ∧
    (sampleMesh.lowCorner 1 = 0 ∧ sampleMesh.highCorner 1 = 10) :=
  have h := uniform_ctor_stores_inputs (1/1000) 2 (fun _ => 0) (fun _ => 10)
    (fun _ => 0) (fun _ => 10) (fun _ => 5) sampleMesh sampleMesh
    (by with_unfolding_all decide) (by with_unfolding_all decide)
  ⟨h.1 0, h.2.1, h.2.2 1⟩

/-- Claim C10: every query of both mesh variants, viewed as a `const`
member call returning its value together with the receiver state, leaves
the stored state unchanged, and a repeated call therefore returns the
identical value. -/
theorem queries_pure_const (m : UniformGlobalMesh) (w : NonUniformGlobalMesh)
    (d : Fin 3) :
    ((methodCall (fun s => s.lowCorner d) m).2 = m ∧
      (methodCall (fun s => s.lowCorner d)
          ((methodCall (fun s => s.lowCorner d) m).2)).1 =
        (methodCall (fun s => s.lowCorner d) m).1) ∧
    ((methodCall (fun s => s.highCorner d) m).2 = m ∧
      (methodCall (fun s => s.highCorner d)
          ((methodCall (fun s => s.highCorner d) m).2)).1 =
        (methodCall (fun s => s.highCorner d) m).1) ∧
    ((methodCall (fun s => s.extent d) m).2 = m ∧
      (methodCall (fun s => s.extent d)
          ((methodCall (fun s => s.extent d) m).2)).1 =
        (methodCall (fun s => s.extent d) m).1) ∧
    ((methodCall (fun s => s.globalNumCell d) m).2 = m ∧
      (methodCall (fun s => s.globalNumCell d)
          ((methodCall (fun s => s.globalNumCell d) m).2)).1 =
        (methodCall (fun s => s.globalNumCell d) m).1) ∧
    ((methodCall (fun s => s.uniformCellSize) m).2 = m ∧
      (methodCall (fun s => s.uniformCellSize)
          ((methodCall (fun s => s.uniformCellSize) m).2)).1 =
        (methodCall (fun s => s.uniformCellSize) m).1) ∧
    ((methodCall (fun s => s.lowCorner d) w).2 = w ∧
      (methodCall (fun s => s.lowCorner d)
          ((methodCall (fun s => s.lowCorner d) w).2)).1 =
        (methodCall (fun s => s.lowCorner d) w).1) ∧
    ((methodCall (fun s => s.highCorner d) w).2 = w ∧
      (methodCall (fun s => s.highCorner d)
          ((methodCall (fun s => s.highCorner d) w).2)).1 =
        (methodCall (fun s => s.highCorner d) w).1) ∧
    ((methodCall (fun s => s.extent d) w).2 = w ∧
      (methodCall (fun s => s.extent d)
          ((methodCall (fun s => s.extent d) w).2)).1 =
        (methodCall (fun s => s.extent d) w).1) ∧
    ((methodCall (fun s => s.globalNumCell d) w).2 = w ∧
      (methodCall (fun s => s.globalNumCell d)
          ((methodCall (fun s => s.globalNumCell d) w).2)).1 =
        (methodCall (fun s => s.globalNumCell d) w).1) ∧
    ((methodCall (fun s => s.nonUniformEdge d) w).2 = w ∧
      (methodCall (fun s => s.nonUniformEdge d)
          ((methodCall (fun s => s.nonUniformEdge d) w).2)).1 =
        (methodCall (fun s => s.nonUniformEdge d) w).1) :=
  ⟨⟨rfl, rfl⟩, ⟨rfl, rfl⟩, ⟨rfl, rfl⟩, ⟨rfl, rfl⟩, ⟨rfl, rfl⟩,
    ⟨rfl, rfl⟩, ⟨rfl, rfl⟩, ⟨rfl, rfl⟩, ⟨rfl, rfl⟩, ⟨rfl, rfl⟩⟩

end Cajita
